import Mathlib

/-!
# Smart Parking Lot System — core verification

Shallow embedding of the Spot Allocation & Fee Engine of the
Smart-ParkingLot-System repository, together with proofs about it.

Conventions of the embedding:
* timestamps are natural numbers of milliseconds (JS `Date` values);
* money amounts are rationals (JS numbers; all amounts involved are
  exactly representable);
* `Math.floor`/`Math.ceil`/`Math.round` applied to `adjustedMinutes / 60`
  are embedded as the equivalent exact natural-number divisions;
* `toFixed(2)` followed by `parseFloat` is embedded as rounding to the
  nearest multiple of 1/100 (ties up), `round2`;
* Mongoose repository calls become pure functions over an explicit
  `LotState`; a thrown `AppError` becomes an `Except.error` carrying the
  error code, and a throw before any write returns the state unchanged.
-/

deriving instance DecidableEq for Except

namespace SmartParking

/-- Vehicle types supported by the system (`constants/vehicleTypes`). -/
inductive VehicleType
  | MOTORCYCLE
  | CAR
  | BUS
  deriving DecidableEq

/-- Spot statuses (`models/ParkingSpot.js` enum). -/
inductive SpotStatus
  | AVAILABLE
  | OCCUPIED
  | MAINTENANCE
  deriving DecidableEq

/-- Rounding strategies of a rate card (`models/RateCard.js` enum). -/
inductive RoundingStrategy
  | CEILING
  | FLOOR
  | ROUND
  deriving DecidableEq

/-- A rate card document (`models/RateCard.js`): the fields destructured by
`calculateParkingFee`.  `daily_max_rate` is optional (`default: null`). -/
structure RateCard where
  hourly_rate : ℚ
  daily_max_rate : Option ℚ
  grace_period_minutes : ℕ
  rounding_strategy : RoundingStrategy
  deriving DecidableEq

/-- Rounding to two decimal places: `parseFloat(x.toFixed(2))` in
`utils/feeCalculator.js` line 110. -/
def round2 (x : ℚ) : ℚ := (round (x * 100) : ℚ) / 100

/-- The `switch (rounding_strategy)` of `utils/feeCalculator.js` lines 83-95,
computing `hourlyUnits` from `adjustedMinutes`.  `Math.ceil(m/60)`,
`Math.floor(m/60)` and `Math.round(m/60)` on a natural number `m` equal the
natural divisions `(m+59)/60`, `m/60` and `(m+30)/60` respectively. -/
def hourlyUnitsFor (strategy : RoundingStrategy) (adjustedMinutes : ℕ) : ℕ :=
  match strategy with
  | .CEILING => (adjustedMinutes + 59) / 60
  | .FLOOR => adjustedMinutes / 60
  | .ROUND => (adjustedMinutes + 30) / 60

/-- Step 5 of `calculateParkingFee` (lines 100-107): apply the daily cap.
Returns the final (uncapped or capped) fee and the `dailyCapApplied` flag. -/
def applyDailyCap (daily_max_rate : Option ℚ) (baseFee : ℚ) : ℚ × Bool :=
  match daily_max_rate with
  | some cap => if baseFee > cap then (cap, true) else (baseFee, false)
  | none => (baseFee, false)

/-- The `calculation_details` object returned by `calculateParkingFee`. -/
structure CalculationDetails where
  grace_period_applied : ℕ
  adjusted_minutes : ℕ
  hourly_units : ℕ
  base_fee : ℚ
  daily_cap_applied : Bool
  final_fee : ℚ
  deriving DecidableEq

/-- The result object of `calculateParkingFee` (the fields relevant to the
fee computation; the echoed rate card, the formatted duration string and the
currency tag are omitted). -/
structure FeeResult where
  vehicle_type : VehicleType
  entry_time : ℕ
  exit_time : ℕ
  duration_minutes : ℕ
  calculation_details : CalculationDetails
  parking_fee : ℚ
  deriving DecidableEq

/-- `calculateParkingFee` of `utils/feeCalculator.js` lines 22-135.
`entryTime`/`exitTime` are millisecond timestamps; `exitTime <= entryTime`
throws (`Except.error`).  `durationMinutes = Math.floor(durationMs/60000)`;
a duration within the grace period returns the all-zero breakdown (lines
52-76); otherwise hourly units, base fee, daily cap and 2-decimal rounding
are applied (lines 78-134). -/
def calculateParkingFee (vehicleType : VehicleType) (entryTime exitTime : ℕ)
    (rateCard : RateCard) : Except String FeeResult :=
  if exitTime ≤ entryTime then
    .error "Exit time must be after entry time"
  else
    let durationMinutes := (exitTime - entryTime) / 60000
    if durationMinutes ≤ rateCard.grace_period_minutes then
      .ok
        { vehicle_type := vehicleType
          entry_time := entryTime
          exit_time := exitTime
          duration_minutes := durationMinutes
          calculation_details :=
            { grace_period_applied := durationMinutes
              adjusted_minutes := 0
              hourly_units := 0
              base_fee := 0
              daily_cap_applied := false
              final_fee := 0 }
          parking_fee := 0 }
    else
      let adjustedMinutes := durationMinutes - rateCard.grace_period_minutes
      let hourlyUnits := hourlyUnitsFor rateCard.rounding_strategy adjustedMinutes
      let baseFee : ℚ := (hourlyUnits : ℚ) * rateCard.hourly_rate
      let capped := applyDailyCap rateCard.daily_max_rate baseFee
      let finalFee := round2 capped.1
      .ok
        { vehicle_type := vehicleType
          entry_time := entryTime
          exit_time := exitTime
          duration_minutes := durationMinutes
          calculation_details :=
            { grace_period_applied := rateCard.grace_period_minutes
              adjusted_minutes := adjustedMinutes
              hourly_units := hourlyUnits
              base_fee := round2 baseFee
              daily_cap_applied := capped.2
              final_fee := finalFee }
          parking_fee := finalFee }

/-- A parking spot document (`models/ParkingSpot.js`).  `id` stands for the
Mongo `_id`; `current_vehicle_id` is the occupant reference
(`default: null`). -/
structure Spot where
  id : ℕ
  floor_number : ℕ
  spot_number : ℕ
  spot_type : VehicleType
  status : SpotStatus
  current_vehicle_id : Option ℕ
  deriving DecidableEq

/-- `getEligibleSpotTypes` of `utils/spotAllocator.js`: the spot types a
vehicle type may occupy (hierarchy MOTORCYCLE < CAR < BUS). -/
def getEligibleSpotTypes (vehicleType : VehicleType) : List VehicleType :=
  match vehicleType with
  | .MOTORCYCLE => [.MOTORCYCLE, .CAR, .BUS]
  | .CAR => [.CAR, .BUS]
  | .BUS => [.BUS]

/-- `getSpotTypePriority` of `utils/spotAllocator.js`: best-fit size
priority (lower = preferred).  The `|| 999` fallback of the source is
unreachable for the three-valued enum. -/
def getSpotTypePriority (spotType : VehicleType) : ℕ :=
  match spotType with
  | .MOTORCYCLE => 1
  | .CAR => 2
  | .BUS => 3

/-- The comparator passed to `spots.sort` in `sortSpotsByPriority`
(`utils/spotAllocator.js` lines 244-259): floor number, then spot-type
priority, then spot number. -/
def spotCompare (a b : Spot) : Int :=
  if a.floor_number ≠ b.floor_number then
    (a.floor_number : Int) - (b.floor_number : Int)
  else
    let priorityA := getSpotTypePriority a.spot_type
    let priorityB := getSpotTypePriority b.spot_type
    if priorityA ≠ priorityB then (priorityA : Int) - (priorityB : Int)
    else (a.spot_number : Int) - (b.spot_number : Int)

/-- The non-strict order induced by `spotCompare` (comparator result ≤ 0). -/
def spotLe (a b : Spot) : Bool := spotCompare a b ≤ 0

/-- `sortSpotsByPriority` of `utils/spotAllocator.js`: `Array.prototype.sort`
with the comparator above.  JavaScript's `sort` is a stable sort consistent
with the comparator; it is embedded as a stable merge sort over `spotLe`. -/
def sortSpotsByPriority (spots : List Spot) : List Spot :=
  spots.mergeSort spotLe

/-- `selectOptimalSpot` of `utils/spotAllocator.js` lines 274-302: filter the
given spots to eligible types with status AVAILABLE, sort by priority, and
return the first one (`null` when nothing matches). -/
def selectOptimalSpot (vehicleType : VehicleType) (availableSpots : List Spot) :
    Option Spot :=
  if availableSpots.isEmpty then none
  else
    let eligibleTypes := getEligibleSpotTypes vehicleType
    let matchingSpots := availableSpots.filter fun spot =>
      eligibleTypes.contains spot.spot_type && spot.status == .AVAILABLE
    if matchingSpots.isEmpty then none
    else (sortSpotsByPriority matchingSpots).head?

/-- The ordering the specification prescribes for candidate spots: ascending
floor number, then ascending spot-type priority, then ascending spot
number (lexicographic). -/
def spotKeyLe (a b : Spot) : Prop :=
  a.floor_number < b.floor_number ∨
    (a.floor_number = b.floor_number ∧
      (getSpotTypePriority a.spot_type < getSpotTypePriority b.spot_type ∨
        (getSpotTypePriority a.spot_type = getSpotTypePriority b.spot_type ∧
          a.spot_number ≤ b.spot_number)))

instance (a b : Spot) : Decidable (spotKeyLe a b) := by
  unfold spotKeyLe
  infer_instance

lemma spotLe_iff_spotKeyLe (a b : Spot) : spotLe a b = true ↔ spotKeyLe a b := by
  unfold spotLe spotCompare spotKeyLe
  by_cases hf : a.floor_number = b.floor_number
  · by_cases hp : getSpotTypePriority a.spot_type = getSpotTypePriority b.spot_type
    · simp [hf, hp] <;> omega
    · simp [hf, hp] <;> omega
  · simp [hf] <;> omega

lemma spotKeyLe_refl (a : Spot) : spotKeyLe a a := by
  unfold spotKeyLe
  omega

lemma spotLe_trans (a b c : Spot) :
    spotLe a b → spotLe b c → spotLe a c := by
  intro hab hbc
  rw [spotLe_iff_spotKeyLe] at *
  unfold spotKeyLe at *
  omega

lemma spotLe_total (a b : Spot) : spotLe a b || spotLe b a := by
  rw [Bool.or_eq_true, spotLe_iff_spotKeyLe, spotLe_iff_spotKeyLe]
  unfold spotKeyLe
  omega

/-- Payment statuses (`models/ParkingTransaction` enum). -/
inductive PaymentStatus
  | PENDING
  | PAID
  | CANCELLED
  deriving DecidableEq

/-- A vehicle document (`models/Vehicle.js`): the fields the entry/exit
services read or write. -/
structure Vehicle where
  id : ℕ
  license_plate : String
  vehicle_type : VehicleType
  is_currently_parked : Bool
  deriving DecidableEq

/-- A parking transaction document: `entry_time` set at open;
`exit_time`, `duration_minutes`, `parking_fee`, `payment_status` set at
close (`null` while open). -/
structure ParkingTransaction where
  id : ℕ
  vehicle_id : ℕ
  spot_id : ℕ
  entry_time : ℕ
  exit_time : Option ℕ
  duration_minutes : Option ℕ
  parking_fee : Option ℚ
  payment_status : Option PaymentStatus
  deriving DecidableEq

/-- The per-type occupancy counters of the parking lot document that
`incrementOccupiedSpots`/`decrementOccupiedSpots` maintain with `$inc`
(no clamping, so the counters live in ℤ). -/
structure ParkingLot where
  id : ℕ
  occupied_motorcycle : ℤ
  occupied_car : ℤ
  occupied_bus : ℤ
  available_motorcycle : ℤ
  available_car : ℤ
  available_bus : ℤ
  deriving DecidableEq

/-- A rate card document together with its `vehicle_type` key
(`models/RateCard.js`). -/
structure RateCardDoc where
  vehicle_type : VehicleType
  card : RateCard
  deriving DecidableEq

/-- The shared persistent state the services operate on: the four Mongo
collections and a counter supplying fresh `_id`s. -/
structure LotState where
  vehicles : List Vehicle
  spots : List Spot
  transactions : List ParkingTransaction
  rate_cards : List RateCardDoc
  lot : Option ParkingLot
  next_id : ℕ
  deriving DecidableEq

/-- `vehicleRepository.findByLicensePlate`: `findOne` on the plate (first
matching document).  The source uppercases the plate both here and when the
vehicle is created, so on the stored (already uppercase) plates the
normalization is the identity and is omitted from the embedding. -/
def findByLicensePlate (st : LotState) (licensePlate : String) : Option Vehicle :=
  st.vehicles.find? fun v => v.license_plate == licensePlate

/-- `transactionRepository.findActiveByVehicleId`: `findOne` on
`vehicle_id` with `exit_time: null`. -/
def findActiveByVehicleId (st : LotState) (vehicleId : ℕ) :
    Option ParkingTransaction :=
  st.transactions.find? fun t => t.vehicle_id == vehicleId && t.exit_time == none

/-- `rateCardRepository.findByVehicleType`. -/
def findRateCardByVehicleType (st : LotState) (vehicleType : VehicleType) :
    Option RateCardDoc :=
  st.rate_cards.find? fun rc => rc.vehicle_type == vehicleType

/-- The document update `parkingSpotRepository.updateStatus` performs on a
spot (`repositories` part, lines 173-191): `updateData = { status }`, and
`current_vehicle_id` is added to the update **only when `vehicleId` is not
null** — a null `vehicleId` (the release case) leaves the old occupant
reference in place.  No check of the spot's previous status is made. -/
def updateStatus (spot : Spot) (status : SpotStatus) (vehicleId : Option ℕ) :
    Spot :=
  if vehicleId ≠ none then
    { spot with status := status, current_vehicle_id := vehicleId }
  else
    { spot with status := status }

/-- `parkingSpotRepository.updateStatus` lifted to the state: update the
spot with the given id. -/
def updateStatusInState (st : LotState) (spotId : ℕ) (status : SpotStatus)
    (vehicleId : Option ℕ) : LotState :=
  { st with
    spots := st.spots.map fun s =>
      if s.id = spotId then updateStatus s status vehicleId else s }

/-- `vehicleRepository.updateParkingStatus`: set `is_currently_parked`. -/
def updateParkingStatus (st : LotState) (vehicleId : ℕ) (isParked : Bool) :
    LotState :=
  { st with
    vehicles := st.vehicles.map fun v =>
      if v.id = vehicleId then { v with is_currently_parked := isParked } else v }

/-- `transactionRepository.updateExit`: set the closing fields of a
transaction. -/
def updateExit (st : LotState) (transactionId : ℕ) (exitTime : ℕ)
    (durationMinutes : ℕ) (parkingFee : ℚ) : LotState :=
  { st with
    transactions := st.transactions.map fun t =>
      if t.id = transactionId then
        { t with
          exit_time := some exitTime
          duration_minutes := some durationMinutes
          parking_fee := some parkingFee
          payment_status := some .PENDING }
      else t }

/-- `parkingLotRepository.incrementOccupiedSpots`: `$inc` the per-type
occupied counter by 1 and the available counter by -1. -/
def incrementOccupiedSpots (lot : ParkingLot) (vehicleType : VehicleType) :
    ParkingLot :=
  match vehicleType with
  | .MOTORCYCLE =>
    { lot with
      occupied_motorcycle := lot.occupied_motorcycle + 1
      available_motorcycle := lot.available_motorcycle - 1 }
  | .CAR =>
    { lot with
      occupied_car := lot.occupied_car + 1
      available_car := lot.available_car - 1 }
  | .BUS =>
    { lot with
      occupied_bus := lot.occupied_bus + 1
      available_bus := lot.available_bus - 1 }

/-- `parkingLotRepository.decrementOccupiedSpots`: the opposite `$inc`. -/
def decrementOccupiedSpots (lot : ParkingLot) (vehicleType : VehicleType) :
    ParkingLot :=
  match vehicleType with
  | .MOTORCYCLE =>
    { lot with
      occupied_motorcycle := lot.occupied_motorcycle - 1
      available_motorcycle := lot.available_motorcycle + 1 }
  | .CAR =>
    { lot with
      occupied_car := lot.occupied_car - 1
      available_car := lot.available_car + 1 }
  | .BUS =>
    { lot with
      occupied_bus := lot.occupied_bus - 1
      available_bus := lot.available_bus + 1 }

/-- Steps 7/8: `parkingLotRepository.findDefault()` followed by the counter
update when a lot document exists. -/
def bumpLotCounters (st : LotState) (vehicleType : VehicleType)
    (increment : Bool) : LotState :=
  match st.lot with
  | none => st
  | some lot =>
    { st with
      lot := some (if increment then incrementOccupiedSpots lot vehicleType
        else decrementOccupiedSpots lot vehicleType) }

/-- The error codes of the `AppError`s thrown by the entry/exit services. -/
inductive ErrorCode
  | VEHICLE_ALREADY_PARKED
  | NO_SPOT_AVAILABLE
  | VEHICLE_NOT_FOUND
  | ALREADY_EXITED
  | TRANSACTION_NOT_FOUND
  | DATABASE_ERROR
  | INTERNAL_ERROR
  deriving DecidableEq

/-- `spotAllocationService.allocateSpot`: the repository query
`findAvailableByTypes` filters to the eligible types with status AVAILABLE
and `selectOptimalSpot` picks the best-fit candidate (the repository's own
sort is redone by `sortSpotsByPriority` and therefore does not affect the
outcome). -/
def allocateSpot (vehicleType : VehicleType) (st : LotState) : Option Spot :=
  let eligibleTypes := getEligibleSpotTypes vehicleType
  let availableSpots := st.spots.filter fun s =>
    eligibleTypes.contains s.spot_type && s.status == .AVAILABLE
  selectOptimalSpot vehicleType availableSpots

/-- The entry confirmation returned by `entryService.processEntry`. -/
structure EntryResult where
  transaction_id : ℕ
  vehicle_id : ℕ
  spot_id : ℕ
  floor_number : ℕ
  spot_number : ℕ
  spot_type : VehicleType
  entry_time : ℕ
  deriving DecidableEq

/-- Steps 3-7 of `entryService.processEntry`: allocate a spot, create the
transaction, mark the spot OCCUPIED, flag the vehicle parked, bump the lot
counters.  `now` is the `new Date()` entry timestamp. -/
def entryAllocateAndCommit (vehicleType : VehicleType) (now : ℕ)
    (st : LotState) (vehicle : Vehicle) : LotState × Except ErrorCode EntryResult :=
  match allocateSpot vehicleType st with
  | none => (st, .error .NO_SPOT_AVAILABLE)
  | some spot =>
    let txn : ParkingTransaction :=
      { id := st.next_id
        vehicle_id := vehicle.id
        spot_id := spot.id
        entry_time := now
        exit_time := none
        duration_minutes := none
        parking_fee := none
        payment_status := none }
    let st2 := { st with
      transactions := st.transactions ++ [txn]
      next_id := st.next_id + 1 }
    let st3 := updateStatusInState st2 spot.id .OCCUPIED (some vehicle.id)
    let st4 := updateParkingStatus st3 vehicle.id true
    let st5 := bumpLotCounters st4 vehicleType true
    (st5, .ok
      { transaction_id := txn.id
        vehicle_id := vehicle.id
        spot_id := spot.id
        floor_number := spot.floor_number
        spot_number := spot.spot_number
        spot_type := spot.spot_type
        entry_time := now })

/-- `entryService.processEntry` (lines 23-106): reject when the vehicle is
already flagged parked (step 1), otherwise reuse or create the vehicle
record (step 2) and run the allocation/commit steps. -/
def processEntry (licensePlate : String) (vehicleType : VehicleType)
    (now : ℕ) (st : LotState) : LotState × Except ErrorCode EntryResult :=
  match findByLicensePlate st licensePlate with
  | some existingVehicle =>
    if existingVehicle.is_currently_parked then
      (st, .error .VEHICLE_ALREADY_PARKED)
    else
      entryAllocateAndCommit vehicleType now st existingVehicle
  | none =>
    let vehicle : Vehicle :=
      { id := st.next_id
        license_plate := licensePlate
        vehicle_type := vehicleType
        is_currently_parked := false }
    let st1 := { st with
      vehicles := st.vehicles ++ [vehicle]
      next_id := st.next_id + 1 }
    entryAllocateAndCommit vehicleType now st1 vehicle

/-- The exit confirmation returned by `exitService.processExit`. -/
structure ExitResult where
  transaction_id : ℕ
  vehicle_id : ℕ
  spot_id : ℕ
  entry_time : ℕ
  exit_time : ℕ
  duration_minutes : ℕ
  parking_fee : ℚ
  payment_status : PaymentStatus
  deriving DecidableEq

/-- `exitService.processExit` (lines 24-123): find the vehicle (else
VEHICLE_NOT_FOUND), require its parked flag (else ALREADY_EXITED), find the
open transaction (else TRANSACTION_NOT_FOUND), look up the rate card (else
DATABASE_ERROR), compute the fee, close the transaction, release the spot
via `updateStatus(spot, 'AVAILABLE', null)`, clear the parked flag and
decrement the lot counters. -/
def processExit (licensePlate : String) (now : ℕ) (st : LotState) :
    LotState × Except ErrorCode ExitResult :=
  match findByLicensePlate st licensePlate with
  | none => (st, .error .VEHICLE_NOT_FOUND)
  | some vehicle =>
    if !vehicle.is_currently_parked then
      (st, .error .ALREADY_EXITED)
    else
      match findActiveByVehicleId st vehicle.id with
      | none => (st, .error .TRANSACTION_NOT_FOUND)
      | some transaction =>
        match findRateCardByVehicleType st vehicle.vehicle_type with
        | none => (st, .error .DATABASE_ERROR)
        | some rateCard =>
          match calculateParkingFee vehicle.vehicle_type
              transaction.entry_time now rateCard.card with
          | .error _ => (st, .error .INTERNAL_ERROR)
          | .ok feeDetails =>
            let st1 := updateExit st transaction.id now
              feeDetails.duration_minutes feeDetails.parking_fee
            let st2 := updateStatusInState st1 transaction.spot_id .AVAILABLE none
            let st3 := updateParkingStatus st2 vehicle.id false
            let st4 := bumpLotCounters st3 vehicle.vehicle_type false
            (st4, .ok
              { transaction_id := transaction.id
                vehicle_id := vehicle.id
                spot_id := transaction.spot_id
                entry_time := transaction.entry_time
                exit_time := now
                duration_minutes := feeDetails.duration_minutes
                parking_fee := feeDetails.parking_fee
                payment_status := .PENDING })

/-! ## Arithmetic bridge lemmas

The embedded hourly-unit computation uses exact natural divisions; these
lemmas identify them with the ceiling, floor and round of the rational
`adjustedMinutes / 60` that the source computes with `Math.ceil`,
`Math.floor` and `Math.round`. -/

lemma natCast_div60_floor (n : ℕ) : ((n / 60 : ℕ) : ℤ) = ⌊(n : ℚ) / 60⌋ := by
  have h2 : (n : ℚ) / 60 = ((n : ℤ) : ℚ) / ((60 : ℕ) : ℚ) := by push_cast; ring
  rw [h2, Rat.floor_intCast_div_natCast]
  omega

lemma natCast_div60_ceil (n : ℕ) : (((n + 59) / 60 : ℕ) : ℤ) = ⌈(n : ℚ) / 60⌉ := by
  have h1 : ⌈(n : ℚ) / 60⌉ = -⌊-((n : ℚ) / 60)⌋ := by
    rw [← Int.ceil_neg, neg_neg]
  have h2 : -((n : ℚ) / 60) = ((-(n : ℤ) : ℤ) : ℚ) / ((60 : ℕ) : ℚ) := by
    push_cast; ring
  rw [h1, h2, Rat.floor_intCast_div_natCast]
  omega

lemma natCast_div60_round (n : ℕ) : (((n + 30) / 60 : ℕ) : ℤ) = round ((n : ℚ) / 60) := by
  rw [round_eq]
  have h : (n : ℚ) / 60 + 1 / 2 = ((n + 30 : ℕ) : ℚ) / 60 := by push_cast; ring
  rw [h]
  exact natCast_div60_floor (n + 30)

/-! ## Claim theorems: fee engine -/

/-- C2: for vehicle type CAR, entry 10:00 and exit 12:35 (as millisecond
timestamps, 155 minutes apart) and the rate card with hourly_rate 8.00,
daily_max_rate 50.00, grace 15 min and CEILING rounding,
`calculateParkingFee` returns adjusted_minutes = 140, hourly_units = 3,
parking_fee = 24.00 and daily_cap_applied = false. -/
theorem calculateParkingFee_car_155min_example :
    (calculateParkingFee .CAR 36000000 45300000
        ⟨8, some 50, 15, .CEILING⟩).toOption.map
      (fun r => (r.calculation_details.adjusted_minutes,
        r.calculation_details.hourly_units, r.parking_fee,
        r.calculation_details.daily_cap_applied)) =
    some (140, 3, 24, false) := by
  norm_num [calculateParkingFee, hourlyUnitsFor, applyDailyCap, round2,
    round_eq, Except.toOption]

/-- C3: whenever the exit is strictly after the entry and the floored
duration in minutes is at most the grace period, `calculateParkingFee`
returns the all-zero breakdown: parking_fee 0, hourly_units 0, base_fee 0,
daily_cap_applied false — no further computation happens. -/
theorem calculateParkingFee_grace_absorbs (vehicleType : VehicleType)
    (entryTime exitTime : ℕ) (rateCard : RateCard)
    (h1 : entryTime < exitTime)
    (h2 : (exitTime - entryTime) / 60000 ≤ rateCard.grace_period_minutes) :
    calculateParkingFee vehicleType entryTime exitTime rateCard =
      .ok
        { vehicle_type := vehicleType
          entry_time := entryTime
          exit_time := exitTime
          duration_minutes := (exitTime - entryTime) / 60000
          calculation_details :=
            { grace_period_applied := (exitTime - entryTime) / 60000
              adjusted_minutes := 0
              hourly_units := 0
              base_fee := 0
              daily_cap_applied := false
              final_fee := 0 }
          parking_fee := 0 } := by
  simp only [calculateParkingFee]
  rw [if_neg (not_le.mpr h1), if_pos h2]

/-- Witness for C3 at a concrete input: a 10-minute stay against a
15-minute grace period costs nothing. -/
theorem calculateParkingFee_grace_absorbs_witness :
    calculateParkingFee .CAR 0 600000 ⟨8, some 50, 15, .CEILING⟩ =
      .ok
        { vehicle_type := .CAR
          entry_time := 0
          exit_time := 600000
          duration_minutes := 10
          calculation_details :=
            { grace_period_applied := 10
              adjusted_minutes := 0
              hourly_units := 0
              base_fee := 0
              daily_cap_applied := false
              final_fee := 0 }
          parking_fee := 0 } :=
  calculateParkingFee_grace_absorbs .CAR 0 600000
    ⟨8, some 50, 15, .CEILING⟩ (by norm_num) (by norm_num)

/-- C4: past the grace period, `adjusted_minutes` is the duration minus the
grace period and `hourly_units` is the rounding strategy applied to
`adjusted_minutes / 60`: CEILING is the ceiling, FLOOR the floor, and ROUND
the round-half-up of that rational. -/
theorem calculateParkingFee_hourly_units (vehicleType : VehicleType)
    (entryTime exitTime : ℕ) (rateCard : RateCard)
    (h1 : entryTime < exitTime)
    (h2 : rateCard.grace_period_minutes < (exitTime - entryTime) / 60000) :
    ∃ r, calculateParkingFee vehicleType entryTime exitTime rateCard = .ok r ∧
      r.calculation_details.adjusted_minutes =
        (exitTime - entryTime) / 60000 - rateCard.grace_period_minutes ∧
      ((r.calculation_details.hourly_units : ℤ) =
        match rateCard.rounding_strategy with
        | .CEILING => ⌈(r.calculation_details.adjusted_minutes : ℚ) / 60⌉
        | .FLOOR => ⌊(r.calculation_details.adjusted_minutes : ℚ) / 60⌋
        | .ROUND => round ((r.calculation_details.adjusted_minutes : ℚ) / 60)) := by
  simp only [calculateParkingFee]
  rw [if_neg (not_le.mpr h1), if_neg (not_le.mpr h2)]
  refine ⟨_, rfl, rfl, ?_⟩
  cases rateCard.rounding_strategy with
  | CEILING => exact natCast_div60_ceil _
  | FLOOR => exact natCast_div60_floor _
  | ROUND => exact natCast_div60_round _

/-- Witness for C4 at adjusted_minutes = 90 for each of the three rounding
strategies: CEILING yields 2 units, FLOOR 1 unit, ROUND 2 units (entry 0,
exit at 105 minutes, grace 15). -/
theorem calculateParkingFee_hourly_units_witness :
    (∃ r, calculateParkingFee .CAR 0 6300000 ⟨8, none, 15, .CEILING⟩ = .ok r ∧
      r.calculation_details.adjusted_minutes = 90 ∧
      r.calculation_details.hourly_units = 2) ∧
    (∃ r, calculateParkingFee .CAR 0 6300000 ⟨8, none, 15, .FLOOR⟩ = .ok r ∧
      r.calculation_details.adjusted_minutes = 90 ∧
      r.calculation_details.hourly_units = 1) ∧
    (∃ r, calculateParkingFee .CAR 0 6300000 ⟨8, none, 15, .ROUND⟩ = .ok r ∧
      r.calculation_details.adjusted_minutes = 90 ∧
      r.calculation_details.hourly_units = 2) := by
  refine ⟨?_, ?_, ?_⟩
  · obtain ⟨r, hr, ha, hu⟩ := calculateParkingFee_hourly_units .CAR 0 6300000
      ⟨8, none, 15, .CEILING⟩ (by norm_num) (by norm_num)
    have ha' : r.calculation_details.adjusted_minutes = 90 := by
      rw [ha]; rfl
    rw [ha'] at hu
    have hu' : (r.calculation_details.hourly_units : ℤ) =
        ⌈((90 : ℕ) : ℚ) / 60⌉ := hu
    rw [← natCast_div60_ceil 90] at hu'
    exact ⟨r, hr, ha', by omega⟩
  · obtain ⟨r, hr, ha, hu⟩ := calculateParkingFee_hourly_units .CAR 0 6300000
      ⟨8, none, 15, .FLOOR⟩ (by norm_num) (by norm_num)
    have ha' : r.calculation_details.adjusted_minutes = 90 := by
      rw [ha]; rfl
    rw [ha'] at hu
    have hu' : (r.calculation_details.hourly_units : ℤ) =
        ⌊((90 : ℕ) : ℚ) / 60⌋ := hu
    rw [← natCast_div60_floor 90] at hu'
    exact ⟨r, hr, ha', by omega⟩
  · obtain ⟨r, hr, ha, hu⟩ := calculateParkingFee_hourly_units .CAR 0 6300000
      ⟨8, none, 15, .ROUND⟩ (by norm_num) (by norm_num)
    have ha' : r.calculation_details.adjusted_minutes = 90 := by
      rw [ha]; rfl
    rw [ha'] at hu
    have hu' : (r.calculation_details.hourly_units : ℤ) =
        round (((90 : ℕ) : ℚ) / 60) := hu
    rw [← natCast_div60_round 90] at hu'
    exact ⟨r, hr, ha', by omega⟩

/-- C5: past the grace period, when a daily cap is present and the base fee
`hourly_units * hourly_rate` exceeds it, the fee is the cap and
`daily_cap_applied` is true; otherwise the fee is the base fee and the flag
is false; in both cases `parking_fee` is the final fee rounded to two
decimal places. -/
theorem calculateParkingFee_daily_cap (vehicleType : VehicleType)
    (entryTime exitTime : ℕ) (rateCard : RateCard)
    (h1 : entryTime < exitTime)
    (h2 : rateCard.grace_period_minutes < (exitTime - entryTime) / 60000) :
    ∃ r, calculateParkingFee vehicleType entryTime exitTime rateCard = .ok r ∧
      (∀ cap, rateCard.daily_max_rate = some cap →
        ((r.calculation_details.hourly_units : ℚ) * rateCard.hourly_rate > cap →
          r.calculation_details.daily_cap_applied = true ∧
          r.parking_fee = round2 cap ∧
          r.calculation_details.final_fee = round2 cap) ∧
        (¬ (r.calculation_details.hourly_units : ℚ) * rateCard.hourly_rate > cap →
          r.calculation_details.daily_cap_applied = false ∧
          r.parking_fee =
            round2 ((r.calculation_details.hourly_units : ℚ) *
              rateCard.hourly_rate))) ∧
      (rateCard.daily_max_rate = none →
        r.calculation_details.daily_cap_applied = false ∧
        r.parking_fee =
          round2 ((r.calculation_details.hourly_units : ℚ) *
            rateCard.hourly_rate)) := by
  simp only [calculateParkingFee]
  rw [if_neg (not_le.mpr h1), if_neg (not_le.mpr h2)]
  refine ⟨_, rfl, ?_, ?_⟩
  · intro cap hcap
    constructor
    · intro hgt
      simp only [hcap, applyDailyCap] at hgt ⊢
      simp [hgt]
    · intro hng
      simp only [hcap, applyDailyCap] at hng ⊢
      simp [hng]
  · intro hnone
    simp only [hnone, applyDailyCap]
    simp

/-- Witness for C5 at a concrete input: an 8-hour CAR stay (base fee 64.00)
against a 50.00 daily cap is charged exactly the cap with the flag set. -/
theorem calculateParkingFee_daily_cap_witness :
    ∃ r, calculateParkingFee .CAR 0 28800000 ⟨8, some 50, 15, .CEILING⟩ =
        .ok r ∧
      r.calculation_details.daily_cap_applied = true ∧
      r.parking_fee = round2 50 := by
  obtain ⟨r, hr, hsome, -⟩ := calculateParkingFee_daily_cap .CAR 0 28800000
    ⟨8, some 50, 15, .CEILING⟩ (by norm_num) (by norm_num)
  have hunits : r.calculation_details.hourly_units = 8 := by
    have hev : calculateParkingFee .CAR 0 28800000 ⟨8, some 50, 15, .CEILING⟩ =
        .ok
          { vehicle_type := .CAR
            entry_time := 0
            exit_time := 28800000
            duration_minutes := 480
            calculation_details :=
              { grace_period_applied := 15
                adjusted_minutes := 465
                hourly_units := 8
                base_fee := 64
                daily_cap_applied := true
                final_fee := 50 }
            parking_fee := 50 } := by
      norm_num [calculateParkingFee, hourlyUnitsFor, applyDailyCap, round2,
        round_eq]
    rw [hr] at hev
    injection hev with hev
    rw [hev]
  obtain ⟨hflag, hfee, -⟩ := (hsome 50 rfl).1 (by rw [hunits]; norm_num)
  exact ⟨r, hr, hflag, hfee⟩

/-! ## Best-fit selection (for C1) -/

lemma mem_eligibleAvailable_filter (vehicleType : VehicleType)
    (spots : List Spot) (s : Spot) :
    s ∈ spots.filter (fun spot =>
        (getEligibleSpotTypes vehicleType).contains spot.spot_type &&
          spot.status == SpotStatus.AVAILABLE) ↔
    s ∈ spots ∧ s.status = SpotStatus.AVAILABLE ∧
      s.spot_type ∈ getEligibleSpotTypes vehicleType := by
  rw [List.mem_filter]
  simp only [Bool.and_eq_true, beq_iff_eq, List.contains, List.elem_eq_mem,
    decide_eq_true_eq]
  tauto

lemma head_mergeSort_min (l : List Spot) (s : Spot)
    (h : (l.mergeSort spotLe).head? = some s) :
    s ∈ l ∧ ∀ t ∈ l, spotKeyLe s t := by
  have hpw := List.sorted_mergeSort spotLe_trans spotLe_total l
  cases hms : l.mergeSort spotLe with
  | nil => rw [hms] at h; simp at h
  | cons a rest =>
    rw [hms] at h hpw
    simp only [List.head?_cons, Option.some.injEq] at h
    subst h
    obtain ⟨hhead, -⟩ := List.pairwise_cons.mp hpw
    constructor
    · have hmem : a ∈ l.mergeSort spotLe := by
        rw [hms]; exact List.mem_cons_self a rest
      exact List.mem_mergeSort.mp hmem
    · intro t ht
      have htc : t ∈ a :: rest := by
        rw [← hms]; exact List.mem_mergeSort.mpr ht
      rcases List.mem_cons.mp htc with rfl | htr
      · exact spotKeyLe_refl _
      · exact (spotLe_iff_spotKeyLe _ _).mp (hhead t htr)

/-- C1: `selectOptimalSpot` returns `none` exactly when no given spot is
AVAILABLE with a type eligible for the vehicle; any returned spot is such a
candidate and is least — ascending floor, then spot-type priority, then
spot number — among all candidates.  Determinism over identical inputs is
immediate since the function is pure. -/
theorem selectOptimalSpot_best_fit (vehicleType : VehicleType)
    (spots : List Spot) :
    (selectOptimalSpot vehicleType spots = none ↔
      spots.filter (fun spot =>
        (getEligibleSpotTypes vehicleType).contains spot.spot_type &&
          spot.status == SpotStatus.AVAILABLE) = []) ∧
    (∀ s, selectOptimalSpot vehicleType spots = some s →
      s ∈ spots ∧ s.status = SpotStatus.AVAILABLE ∧
      s.spot_type ∈ getEligibleSpotTypes vehicleType ∧
      ∀ t ∈ spots, t.status = SpotStatus.AVAILABLE →
        t.spot_type ∈ getEligibleSpotTypes vehicleType → spotKeyLe s t) := by
  simp only [selectOptimalSpot, sortSpotsByPriority]
  by_cases h0 : spots.isEmpty
  · rw [if_pos h0]
    have hsp : spots = [] := List.isEmpty_iff.mp h0
    subst hsp
    simp
  · rw [if_neg h0]
    by_cases h1 : (spots.filter (fun spot =>
        (getEligibleSpotTypes vehicleType).contains spot.spot_type &&
          spot.status == SpotStatus.AVAILABLE)).isEmpty
    · rw [if_pos h1]
      have hf : spots.filter (fun spot =>
          (getEligibleSpotTypes vehicleType).contains spot.spot_type &&
            spot.status == SpotStatus.AVAILABLE) = [] :=
        List.isEmpty_iff.mp h1
      exact ⟨⟨fun _ => hf, fun _ => rfl⟩, fun s hs => absurd hs (by simp)⟩
    · rw [if_neg h1]
      constructor
      · constructor
        · intro hh
          have heq := List.head?_eq_none_iff.mp hh
          have hp := List.mergeSort_perm (spots.filter (fun spot =>
            (getEligibleSpotTypes vehicleType).contains spot.spot_type &&
              spot.status == SpotStatus.AVAILABLE)) spotLe
          rw [heq] at hp
          exact hp.symm.eq_nil
        · intro hf
          exact absurd (List.isEmpty_iff.mpr hf) h1
      · intro s hs
        obtain ⟨hmem, hmin⟩ := head_mergeSort_min _ s hs
        obtain ⟨hsp, hst, hel⟩ :=
          (mem_eligibleAvailable_filter vehicleType spots s).mp hmem
        refine ⟨hsp, hst, hel, ?_⟩
        intro t ht hts hte
        exact hmin t ((mem_eligibleAvailable_filter vehicleType spots t).mpr
          ⟨ht, hts, hte⟩)

/-- Witness for C1 at a concrete input: a CAR among an occupied CAR spot, a
MOTORCYCLE spot, a floor-2 CAR spot and a floor-1 BUS spot gets the floor-1
BUS spot, which is a least candidate. -/
theorem selectOptimalSpot_best_fit_witness :
    selectOptimalSpot .CAR
        [⟨22, 2, 1, .CAR, .AVAILABLE, none⟩,
         ⟨21, 1, 2, .BUS, .AVAILABLE, none⟩,
         ⟨23, 1, 1, .MOTORCYCLE, .AVAILABLE, none⟩,
         ⟨24, 1, 1, .CAR, .OCCUPIED, some 9⟩] =
      some ⟨21, 1, 2, .BUS, .AVAILABLE, none⟩ ∧
    (Spot.mk 21 1 2 .BUS .AVAILABLE none).status = SpotStatus.AVAILABLE ∧
    (Spot.mk 21 1 2 .BUS .AVAILABLE none).spot_type ∈
      getEligibleSpotTypes .CAR ∧
    ∀ t ∈ [Spot.mk 22 2 1 .CAR .AVAILABLE none,
           Spot.mk 21 1 2 .BUS .AVAILABLE none,
           Spot.mk 23 1 1 .MOTORCYCLE .AVAILABLE none,
           Spot.mk 24 1 1 .CAR .OCCUPIED (some 9)],
      t.status = SpotStatus.AVAILABLE →
      t.spot_type ∈ getEligibleSpotTypes .CAR →
      spotKeyLe ⟨21, 1, 2, .BUS, .AVAILABLE, none⟩ t := by
  have hsel : selectOptimalSpot .CAR
      [⟨22, 2, 1, .CAR, .AVAILABLE, none⟩,
       ⟨21, 1, 2, .BUS, .AVAILABLE, none⟩,
       ⟨23, 1, 1, .MOTORCYCLE, .AVAILABLE, none⟩,
       ⟨24, 1, 1, .CAR, .OCCUPIED, some 9⟩] =
      some ⟨21, 1, 2, .BUS, .AVAILABLE, none⟩ := by
    simp [selectOptimalSpot, sortSpotsByPriority, List.mergeSort, List.merge,
      spotLe, spotCompare, getSpotTypePriority, getEligibleSpotTypes,
      List.filter,
      show (SpotStatus.OCCUPIED == SpotStatus.AVAILABLE) = false from rfl,
      show (SpotStatus.AVAILABLE == SpotStatus.AVAILABLE) = true from rfl]
  obtain ⟨-, hst, hel, hmin⟩ :=
    (selectOptimalSpot_best_fit .CAR
      [⟨22, 2, 1, .CAR, .AVAILABLE, none⟩,
       ⟨21, 1, 2, .BUS, .AVAILABLE, none⟩,
       ⟨23, 1, 1, .MOTORCYCLE, .AVAILABLE, none⟩,
       ⟨24, 1, 1, .CAR, .OCCUPIED, some 9⟩]).2 _ hsel
  exact ⟨hsel, hst, hel, hmin⟩

/-! ## Monotonicity of the fee pipeline (for C10) -/

lemma round_le_of_le {x y : ℚ} (h : x ≤ y) : round x ≤ round y := by
  rw [round_eq, round_eq]
  exact Int.floor_le_floor (by linarith)

lemma round2_mono {x y : ℚ} (h : x ≤ y) : round2 x ≤ round2 y := by
  unfold round2
  have hr : round (x * 100) ≤ round (y * 100) := round_le_of_le (by linarith)
  have hc : ((round (x * 100) : ℤ) : ℚ) ≤ ((round (y * 100) : ℤ) : ℚ) :=
    Int.cast_le.mpr hr
  linarith

lemma round2_nonneg {x : ℚ} (h : 0 ≤ x) : 0 ≤ round2 x := by
  unfold round2
  have hr : (0 : ℤ) ≤ round (x * 100) := by
    rw [round_eq]
    exact Int.floor_nonneg.mpr (by linarith)
  have hc : (0 : ℚ) ≤ ((round (x * 100) : ℤ) : ℚ) := by exact_mod_cast hr
  linarith

lemma hourlyUnitsFor_mono (strategy : RoundingStrategy) {a b : ℕ}
    (h : a ≤ b) : hourlyUnitsFor strategy a ≤ hourlyUnitsFor strategy b := by
  cases strategy <;> simp only [hourlyUnitsFor] <;> omega

lemma applyDailyCap_fst_mono (cap : Option ℚ) {x y : ℚ} (h : x ≤ y) :
    (applyDailyCap cap x).1 ≤ (applyDailyCap cap y).1 := by
  cases cap with
  | none => exact h
  | some c =>
    simp only [applyDailyCap]
    split_ifs <;> first | rfl | linarith

lemma applyDailyCap_fst_nonneg (cap : Option ℚ) (x : ℚ) (hx : 0 ≤ x)
    (hcap : ∀ c ∈ cap, 0 ≤ c) : 0 ≤ (applyDailyCap cap x).1 := by
  cases cap with
  | none => exact hx
  | some c =>
    simp only [applyDailyCap]
    split_ifs
    · exact hcap c rfl
    · exact hx

/-- The parking_fee a successful `calculateParkingFee` returns, expressed as
a function of the floored duration. -/
lemma calculateParkingFee_ok_fee (vehicleType : VehicleType)
    (entryTime exitTime : ℕ) (rateCard : RateCard) (h : entryTime < exitTime) :
    ∃ r, calculateParkingFee vehicleType entryTime exitTime rateCard = .ok r ∧
      r.parking_fee =
        (if (exitTime - entryTime) / 60000 ≤ rateCard.grace_period_minutes
         then 0
         else round2 (applyDailyCap rateCard.daily_max_rate
           ((hourlyUnitsFor rateCard.rounding_strategy
             ((exitTime - entryTime) / 60000 -
               rateCard.grace_period_minutes) : ℚ) *
             rateCard.hourly_rate)).1) := by
  simp only [calculateParkingFee]
  rw [if_neg (not_le.mpr h)]
  by_cases hg : (exitTime - entryTime) / 60000 ≤ rateCard.grace_period_minutes
  · rw [if_pos hg, if_pos hg]
    exact ⟨_, rfl, rfl⟩
  · rw [if_neg hg, if_neg hg]
    exact ⟨_, rfl, rfl⟩

/-- C10: with the entry time, vehicle type and rate card fixed (the rate
card valid per the data model: nonnegative hourly rate, daily cap at least
the hourly rate when present), the parking fee is monotone non-decreasing
in the exit time. -/
theorem calculateParkingFee_monotone_in_exit (vehicleType : VehicleType)
    (entryTime t1 t2 : ℕ) (rateCard : RateCard)
    (h1 : entryTime < t1) (h12 : t1 ≤ t2)
    (hr : 0 ≤ rateCard.hourly_rate)
    (hcap : ∀ cap ∈ rateCard.daily_max_rate, rateCard.hourly_rate ≤ cap) :
    ∃ r1 r2,
      calculateParkingFee vehicleType entryTime t1 rateCard = .ok r1 ∧
      calculateParkingFee vehicleType entryTime t2 rateCard = .ok r2 ∧
      r1.parking_fee ≤ r2.parking_fee := by
  obtain ⟨r1, he1, hf1⟩ :=
    calculateParkingFee_ok_fee vehicleType entryTime t1 rateCard h1
  obtain ⟨r2, he2, hf2⟩ :=
    calculateParkingFee_ok_fee vehicleType entryTime t2 rateCard
      (lt_of_lt_of_le h1 h12)
  refine ⟨r1, r2, he1, he2, ?_⟩
  rw [hf1, hf2]
  have hd : (t1 - entryTime) / 60000 ≤ (t2 - entryTime) / 60000 :=
    Nat.div_le_div_right (Nat.sub_le_sub_right h12 entryTime)
  have hcap0 : ∀ c ∈ rateCard.daily_max_rate, 0 ≤ c :=
    fun c hc => le_trans hr (hcap c hc)
  by_cases hg1 : (t1 - entryTime) / 60000 ≤ rateCard.grace_period_minutes
  · rw [if_pos hg1]
    by_cases hg2 : (t2 - entryTime) / 60000 ≤ rateCard.grace_period_minutes
    · rw [if_pos hg2]
    · rw [if_neg hg2]
      exact round2_nonneg (applyDailyCap_fst_nonneg _ _
        (mul_nonneg (Nat.cast_nonneg _) hr) hcap0)
  · rw [if_neg hg1, if_neg (fun hle => hg1 (le_trans hd hle))]
    refine round2_mono (applyDailyCap_fst_mono _ ?_)
    refine mul_le_mul_of_nonneg_right ?_ hr
    exact_mod_cast hourlyUnitsFor_mono rateCard.rounding_strategy
      (Nat.sub_le_sub_right hd rateCard.grace_period_minutes)

/-- Witness for C10 at a concrete input: a CAR staying 60 vs 120 minutes
pays no more for the shorter stay. -/
theorem calculateParkingFee_monotone_in_exit_witness :
    ∃ r1 r2,
      calculateParkingFee .CAR 0 3600000 ⟨8, some 50, 15, .CEILING⟩ = .ok r1 ∧
      calculateParkingFee .CAR 0 7200000 ⟨8, some 50, 15, .CEILING⟩ = .ok r2 ∧
      r1.parking_fee ≤ r2.parking_fee :=
  calculateParkingFee_monotone_in_exit .CAR 0 3600000 7200000
    ⟨8, some 50, 15, .CEILING⟩ (by norm_num) (by norm_num) (by norm_num)
    (fun cap hc => by
      simp only [Option.mem_def, Option.some.injEq] at hc
      rw [← hc]
      norm_num)

/-! ## Release and the entry/exit error paths (C6-C9) -/

/-- C6 (code bug): the release performed at exit —
`updateStatus(spot, 'AVAILABLE', null)` on an OCCUPIED spot with occupant 7
— sets the status to AVAILABLE but does **not** clear `current_vehicle_id`:
because `updateStatus` only adds `current_vehicle_id` to the update when
`vehicleId !== null`, the null release leaves the stale occupant in place,
breaking the invariant that the occupant is set iff the status is
OCCUPIED. -/
theorem updateStatus_release_keeps_occupant :
    updateStatus ⟨3, 1, 1, .CAR, .OCCUPIED, some 7⟩ .AVAILABLE none =
      ⟨3, 1, 1, .CAR, .AVAILABLE, some 7⟩ ∧
    (updateStatus ⟨3, 1, 1, .CAR, .OCCUPIED, some 7⟩
        .AVAILABLE none).current_vehicle_id ≠ none := by
  decide

/-- C7 (code bug): releasing a spot that is not OCCUPIED silently succeeds.
`updateStatus` performs no check of the previous status: on an AVAILABLE
spot the release returns the spot unchanged, and even a MAINTENANCE spot is
switched to AVAILABLE, instead of the NotOccupied rejection the
specification requires. -/
theorem updateStatus_release_unoccupied_succeeds :
    updateStatus ⟨4, 2, 2, .CAR, .AVAILABLE, none⟩ .AVAILABLE none =
      ⟨4, 2, 2, .CAR, .AVAILABLE, none⟩ ∧
    (updateStatus ⟨5, 2, 3, .BUS, .MAINTENANCE, none⟩
        .AVAILABLE none).status = SpotStatus.AVAILABLE := by
  decide

/-- C8: an entry request for a vehicle that holds an open transaction fails
with VEHICLE_ALREADY_PARKED and leaves the whole state (transactions, spots,
vehicles, counters) unchanged: the check precedes every write.  The
hypothesis `hinv` is the reachable-state invariant connecting open
transactions to the `is_currently_parked` flag the source actually tests. -/
theorem processEntry_already_parked (licensePlate : String)
    (vehicleType : VehicleType) (now : ℕ) (st : LotState) (v : Vehicle)
    (txn : ParkingTransaction)
    (hv : findByLicensePlate st licensePlate = some v)
    (ht : txn ∈ st.transactions)
    (htv : txn.vehicle_id = v.id)
    (hopen : txn.exit_time = none)
    (hinv : ∀ t ∈ st.transactions, t.exit_time = none →
      ∀ w ∈ st.vehicles, w.id = t.vehicle_id → w.is_currently_parked = true) :
    processEntry licensePlate vehicleType now st =
      (st, .error .VEHICLE_ALREADY_PARKED) := by
  have hvmem : v ∈ st.vehicles := List.mem_of_find?_eq_some hv
  have hparked : v.is_currently_parked = true :=
    hinv txn ht hopen v hvmem htv.symm
  unfold processEntry
  rw [hv]
  simp [hparked]

/-- The state used by the C8 witness: one parked CAR with an open
transaction on spot 5. -/
def parkedState : LotState :=
  { vehicles := [⟨1, "ABC-123", .CAR, true⟩]
    spots := [⟨5, 1, 1, .CAR, .OCCUPIED, some 1⟩]
    transactions := [⟨10, 1, 5, 1000, none, none, none, none⟩]
    rate_cards := [⟨.CAR, ⟨8, some 50, 15, .CEILING⟩⟩]
    lot := none
    next_id := 11 }

/-- Witness for C8 at a concrete state: the second entry for ABC-123 fails
with VEHICLE_ALREADY_PARKED and the state is returned untouched. -/
theorem processEntry_already_parked_witness :
    processEntry "ABC-123" .CAR 2000 parkedState =
      (parkedState, .error .VEHICLE_ALREADY_PARKED) :=
  processEntry_already_parked "ABC-123" .CAR 2000 parkedState
    ⟨1, "ABC-123", .CAR, true⟩ ⟨10, 1, 5, 1000, none, none, none, none⟩
    (by decide) (by decide) (by decide) (by decide) (by decide)

/-- C9 (amended): for a known vehicle with no open transaction, the failure
code depends on the `is_currently_parked` flag the source checks first:
with the flag still true the exit fails with TRANSACTION_NOT_FOUND, but in
the ordinary consistent state (flag false) it fails with ALREADY_EXITED.
Either way no state is mutated. -/
theorem processExit_no_open_transaction (licensePlate : String) (now : ℕ)
    (st : LotState) (v : Vehicle)
    (hv : findByLicensePlate st licensePlate = some v)
    (hno : ∀ t ∈ st.transactions, t.vehicle_id = v.id → t.exit_time ≠ none) :
    (v.is_currently_parked = true →
      processExit licensePlate now st = (st, .error .TRANSACTION_NOT_FOUND)) ∧
    (v.is_currently_parked = false →
      processExit licensePlate now st = (st, .error .ALREADY_EXITED)) := by
  have hfind : findActiveByVehicleId st v.id = none := by
    unfold findActiveByVehicleId
    rw [List.find?_eq_none]
    intro t htm
    simp only [Bool.and_eq_true, beq_iff_eq, not_and]
    intro h1 h2
    exact hno t htm h1 h2
  constructor
  · intro hp
    unfold processExit
    rw [hv]
    simp [hp, hfind]
  · intro hp
    unfold processExit
    rw [hv]
    simp [hp]

/-- The state used by the C9 counterexample: a known vehicle, not flagged
parked, with no transactions at all. -/
def exitedState : LotState :=
  { vehicles := [⟨1, "XYZ-9", .CAR, false⟩]
    spots := []
    transactions := []
    rate_cards := [⟨.CAR, ⟨8, some 50, 15, .CEILING⟩⟩]
    lot := none
    next_id := 2 }

/-- Counterexample to C9 as stated: for a known vehicle with no open
transaction (and the consistent flag `is_currently_parked = false`),
`processExit` fails with ALREADY_EXITED, not TRANSACTION_NOT_FOUND. -/
theorem processExit_not_parked_counterexample :
    (processExit "XYZ-9" 5000 exitedState).2 = .error .ALREADY_EXITED ∧
    (processExit "XYZ-9" 5000 exitedState).2 ≠
      .error .TRANSACTION_NOT_FOUND := by
  decide

/-- The state used by the C9 witness: the vehicle's flag is still true but
its only transaction is already closed. -/
def staleFlagState : LotState :=
  { vehicles := [⟨1, "XYZ-9", .CAR, true⟩]
    spots := []
    transactions := [⟨7, 1, 3, 0, some 99, some 1, some 5, some .PENDING⟩]
    rate_cards := [⟨.CAR, ⟨8, some 50, 15, .CEILING⟩⟩]
    lot := none
    next_id := 8 }

/-- Witness for the amended C9 at a concrete state: flag true and only a
closed transaction gives TRANSACTION_NOT_FOUND with the state unchanged. -/
theorem processExit_no_open_transaction_witness :
    processExit "XYZ-9" 5000 staleFlagState =
      (staleFlagState, .error .TRANSACTION_NOT_FOUND) :=
  (processExit_no_open_transaction "XYZ-9" 5000 staleFlagState
    ⟨1, "XYZ-9", .CAR, true⟩ (by decide) (by decide)).1 rfl

end SmartParking
